import Mathlib

/-
Verification development for an exam-grading engine.

The definitions below are a shallow embedding of the grading core:
the data model (Question, Exam, GradingConfig, Answer, StudentSubmission,
GradingResult, ExamResult), the deterministic per-answer evaluator
(AnswerEvaluator.evaluate and its six type-specific handlers), the grading
orchestration (ExamGrader.grade_submission, _grade_single_answer,
_generate_overall_feedback, _generate_analytics, grade_multiple_submissions)
and the class-statistics aggregation (ExamAnalytics.get_class_statistics).

Modelling conventions:
- Source floats become exact rationals.  Float constants of the source
  are written as the exact fractions they denote (0.01 becomes 1/100,
  0.8 becomes 8/10), which the proof checker can evaluate.
- Fallible operations become Except values.  A raised, uncaught exception
  is an Except.error carrying the exception text; a caught exception is
  handled exactly where the source catches it.  True division is pyDiv,
  which errors on a zero denominator.
- The AI scoring oracle is an external collaborator; it is modelled as a
  record of functions whose calls may fail, supplied as a parameter.
- The Python syntax check performed by compile() is modelled by a
  parameter pyCompile : String -> Option String (Option.none means the
  code compiles, some msg means a SyntaxError with message msg); the
  ValueError that compile() raises on source text containing a null byte
  is modelled explicitly, since the source catches only SyntaxError.
- Fields of the source dataclasses that no modelled operation consults
  (timestamps, difficulty labels, duration, free-form metadata other than
  the numeric tolerance entry) are omitted.
-/

set_option maxRecDepth 10000

/- The rational operations of the standard library are marked irreducible,
which blocks evaluation of the embedded functions inside proofs; restore
the ordinary reducibility so that concrete runs can be checked by decide. -/
set_option allowUnsafeReducibility true
attribute [semireducible] Rat.add Rat.sub Rat.mul Rat.inv Rat.ofScientific

namespace Grading

/-- A Python value appearing as an answer payload: None, a string, or a
number (int or float, modelled as an exact rational). -/
inductive PyVal where
  | none
  | str (s : String)
  | num (q : ℚ)
  deriving Repr, DecidableEq

/-- Whether the pattern is a prefix of the list. -/
def isPrefixCheck : List Char → List Char → Bool
  | [], _ => true
  | _ :: _, [] => false
  | p :: ps, c :: cs => p == c && isPrefixCheck ps cs

/-- Model of Python str.strip() with no argument: remove leading and
trailing whitespace.  (Implemented over the character list so that it
evaluates inside proofs; the library trim is equivalent on the inputs
considered.) -/
def pyStrip (s : String) : String :=
  ⟨((s.data.dropWhile Char.isWhitespace).reverse.dropWhile Char.isWhitespace).reverse⟩

/-- Model of Python str.lower(). -/
def pyLower (s : String) : String := ⟨s.data.map Char.toLower⟩

/-- One step of the whitespace splitter, consuming characters from the
right: a whitespace character closes the current word. -/
def pySplitStep (c : Char) (acc : List Char × List (List Char)) :
    List Char × List (List Char) :=
  if c.isWhitespace then ([], if acc.1.isEmpty then acc.2 else acc.1 :: acc.2)
  else (c :: acc.1, acc.2)

/-- Model of Python str.split() with no argument: split on whitespace runs,
discarding empty pieces. -/
def pySplit (s : String) : List String :=
  let r := s.data.foldr pySplitStep ([], [])
  (if r.1.isEmpty then r.2 else r.1 :: r.2).map String.mk

/-- Worker of the separator splitter; the fuel strictly exceeds the input
length, so it never runs out. -/
def splitOnAuxL (sep : List Char) : ℕ → List Char → List Char → List (List Char)
  | _, [], acc => [acc.reverse]
  | 0, l, acc => [acc.reverse ++ l]
  | fuel + 1, c :: rest, acc =>
    if isPrefixCheck sep (c :: rest) then
      acc.reverse :: splitOnAuxL sep fuel ((c :: rest).drop sep.length) []
    else
      splitOnAuxL sep fuel rest (c :: acc)

/-- Model of Python str.split(sep) for a nonempty separator (also the
behaviour of the library splitOn): non-overlapping left-to-right
occurrences of sep cut the string. -/
def splitOnStr (s sep : String) : List String :=
  if sep.data.isEmpty then [s]
  else (splitOnAuxL sep.data (s.data.length + 1) s.data []).map String.mk

/-- Model of Python sep.join(parts). -/
def pyJoin (sep : String) : List String → String
  | [] => ""
  | [x] => x
  | x :: xs => x ++ sep ++ pyJoin sep xs

/-- Model of Python str.replace(pat, repl) for a nonempty pattern:
non-overlapping left-to-right occurrences are substituted. -/
def pyReplace (s pat repl : String) : String :=
  pyJoin repl (splitOnStr s pat)

/-- Numeric value of a list of decimal digit characters. -/
def digitsToNat (l : List Char) : ℕ :=
  l.foldl (fun a c => a * 10 + (c.toNat - 48)) 0

/-- Integer power of ten as a rational. -/
def pow10 (e : ℤ) : ℚ :=
  if 0 ≤ e then ((10 : ℚ) ^ e.toNat) else 1 / ((10 : ℚ) ^ (-e).toNat)

/-- Parse the mantissa part of a float literal: digits with an optional
decimal point, at least one digit overall.  Returns (digits value, number
of fractional digits). -/
def parseMantissa (s : String) : Option (ℕ × ℕ) :=
  match splitOnStr s "." with
  | [ip] =>
    if ip ≠ "" ∧ ip.toList.all Char.isDigit then
      some (digitsToNat ip.toList, 0)
    else Option.none
  | [ip, fp] =>
    if (ip ≠ "" ∨ fp ≠ "") ∧ ip.toList.all Char.isDigit ∧ fp.toList.all Char.isDigit then
      some (digitsToNat (ip.toList ++ fp.toList), fp.data.length)
    else Option.none
  | _ => Option.none

/-- Parse the exponent part of a float literal: an optional sign followed
by at least one digit. -/
def parseExp (s : String) : Option ℤ :=
  match s.toList with
  | '+' :: r => if r ≠ [] ∧ r.all Char.isDigit then some ((digitsToNat r : ℤ)) else Option.none
  | '-' :: r => if r ≠ [] ∧ r.all Char.isDigit then some (-(digitsToNat r : ℤ)) else Option.none
  | r => if r ≠ [] ∧ r.all Char.isDigit then some ((digitsToNat r : ℤ)) else Option.none

/-- Model of Python float(string): strip surrounding whitespace, optional
sign, decimal mantissa with optional fraction, optional exponent.
(The special spellings inf/infinity/nan and digit-group underscores are
not modelled; no modelled input uses them.) -/
def parseFloat (s : String) : Option ℚ :=
  let t := pyStrip s
  let signBody : ℚ × String :=
    match t.toList with
    | '+' :: r => (1, String.mk r)
    | '-' :: r => (-1, String.mk r)
    | _ => (1, t)
  match splitOnStr (pyLower signBody.2) "e" with
  | [m] => (parseMantissa m).map (fun p => signBody.1 * (p.1 : ℚ) * pow10 (-(p.2 : ℤ)))
  | [m, ex] =>
    match parseMantissa m, parseExp ex with
    | some p, some e => some (signBody.1 * (p.1 : ℚ) * pow10 (e - (p.2 : ℤ)))
    | _, _ => Option.none
  | _ => Option.none

/-- Fractional decimal digits of a rational in [0,1), up to the given fuel. -/
def fracDigits : ℕ → ℚ → String
  | 0, _ => ""
  | fuel + 1, f =>
    if f = 0 then ""
    else
      let f10 := f * 10
      let d : ℤ := ⌊f10⌋
      toString d ++ fracDigits fuel (f10 - (d : ℚ))

/-- Model of Python repr/str of a float value (exact decimal expansion,
truncated at 17 fractional digits; integral values print with a trailing
".0" exactly as Python floats do). -/
def floatRepr (q : ℚ) : String :=
  let sign := if q < 0 then "-" else ""
  let aq := |q|
  let ip : ℤ := ⌊aq⌋
  let fp := aq - (ip : ℚ)
  if fp = 0 then sign ++ toString ip ++ ".0"
  else sign ++ toString ip ++ "." ++ fracDigits 17 fp

/-- Model of Python str() on an answer payload. -/
def pyStr : PyVal → String
  | .none => "None"
  | .str s => s
  | .num q => floatRepr q

/-- Model of Python float() applied to an answer payload: None raises
TypeError (parse failure), strings are parsed, numbers pass through. -/
def pyFloat : PyVal → Option ℚ
  | .none => Option.none
  | .str s => parseFloat s
  | .num q => some q

/-- Model of Python true division, which raises ZeroDivisionError on a
zero denominator. -/
def pyDiv (a b : ℚ) : Except String ℚ :=
  if b = 0 then .error "ZeroDivisionError: division by zero" else .ok (a / b)

/-- The per-iteration body of a Python for-loop that appends one computed
value per element and lets an exception abort the whole loop. -/
def mapExcept (f : α → Except String β) : List α → Except String (List β)
  | [] => .ok []
  | x :: xs =>
    match f x with
    | .error e => .error e
    | .ok y =>
      match mapExcept f xs with
      | .error e => .error e
      | .ok ys => .ok (y :: ys)

/-! ## Similarity ratio (difflib.SequenceMatcher)

The evaluator computes `SequenceMatcher(None, text1, text2).ratio()`:
twice the total size of the matching blocks over the combined length,
where the matching blocks are found by recursively taking the longest
matching block (earliest in `a`, then earliest in `b`, on ties) and
recursing on the pieces before and after it.  The autojunk heuristic,
which only affects second sequences of length ≥ 200, is not modelled. -/

/-- Length of the longest common prefix of two character lists. -/
def commonRun : List Char → List Char → ℕ
  | a :: as1, b :: bs1 => if a = b then commonRun as1 bs1 + 1 else 0
  | _, _ => 0

/-- Length of the matching run starting at positions i, j, clipped to the
windows ending at ahi, bhi. -/
def runAt (a b : List Char) (ahi bhi i j : ℕ) : ℕ :=
  min (commonRun (a.drop i) (b.drop j)) (min (ahi - i) (bhi - j))

/-- The list lo, lo+1, ..., hi-1. -/
def rangeFrom (lo hi : ℕ) : List ℕ :=
  (List.range (hi - lo)).map (fun k => k + lo)

/-- Size of the longest matching block inside the given windows. -/
def bestSize (a b : List Char) (alo ahi blo bhi : ℕ) : ℕ :=
  ((rangeFrom alo ahi).map
    (fun i => ((rangeFrom blo bhi).map (fun j => runAt a b ahi bhi i j)).foldl max 0)).foldl max 0

/-- Starting position in a of the longest matching block (earliest such). -/
def bestI (a b : List Char) (alo ahi blo bhi : ℕ) : ℕ :=
  let k := bestSize a b alo ahi blo bhi
  ((rangeFrom alo ahi).find?
    (fun i => (rangeFrom blo bhi).any (fun j => decide (k ≤ runAt a b ahi bhi i j)))).getD alo

/-- Starting position in b of the longest matching block at bestI. -/
def bestJ (a b : List Char) (alo ahi blo bhi : ℕ) : ℕ :=
  let k := bestSize a b alo ahi blo bhi
  let i := bestI a b alo ahi blo bhi
  ((rangeFrom blo bhi).find? (fun j => decide (k ≤ runAt a b ahi bhi i j))).getD blo

/-- Total size of all matching blocks (get_matching_blocks recursion).
The fuel strictly exceeds the recursion depth, which is bounded by the
window width. -/
def matchTotal : ℕ → List Char → List Char → ℕ → ℕ → ℕ → ℕ → ℕ
  | 0, _, _, _, _, _, _ => 0
  | fuel + 1, a, b, alo, ahi, blo, bhi =>
    let k := bestSize a b alo ahi blo bhi
    if k = 0 then 0
    else
      let i := bestI a b alo ahi blo bhi
      let j := bestJ a b alo ahi blo bhi
      matchTotal fuel a b alo i blo j + k + matchTotal fuel a b (i + k) ahi (j + k) bhi

/-- Model of AnswerEvaluator._calculate_similarity: the SequenceMatcher
similarity of the two texts. -/
def calculate_similarity (text1 text2 : String) : ℚ :=
  let a := text1.toList
  let b := text2.toList
  let total := a.length + b.length
  if total = 0 then 1
  else 2 * ((matchTotal (a.length + 1) a b 0 a.length 0 b.length : ℚ)) / (total : ℚ)

/-! ## Data model -/

/-- The six supported question types (models.question.QuestionType). -/
inductive QuestionType where
  | multiple_choice
  | short_answer
  | essay
  | code
  | numerical
  | true_false
  deriving Repr, DecidableEq

/-- The .value string of a QuestionType member. -/
def QuestionType.value : QuestionType → String
  | .multiple_choice => "multiple_choice"
  | .short_answer => "short_answer"
  | .essay => "essay"
  | .code => "code"
  | .numerical => "numerical"
  | .true_false => "true_false"

/-- Grading behaviour configuration (models.question.GradingConfig). -/
structure GradingConfig where
  strictness : ℚ := 7/10
  enable_partial_credit : Bool := true
  semantic_matching : Bool := true
  case_sensitive : Bool := false
  ignore_whitespace : Bool := true
  spelling_tolerance : ℚ := 85/100
  ai_grading_enabled : Bool := true
  min_essay_length : ℕ := 50
  code_execution : Bool := false
  deriving Repr, DecidableEq

/-- A single exam question (models.question.Question).  The metadata dict
is modelled by its numeric entries, the only ones the core reads
(metadata.get of the tolerance). -/
structure Question where
  id : String
  text : String
  question_type : QuestionType
  points : ℚ
  correct_answer : PyVal
  topics : List String := []
  rubric : Option String := Option.none
  metadata : List (String × ℚ) := []
  options : Option (List String) := Option.none
  deriving Repr, DecidableEq

/-- Question.__post_init__ validation: points must be positive (the
multiple-choice option-count check does not affect grading behaviour). -/
def Question.valid (q : Question) : Prop := 0 < q.points

/-- A complete exam (models.exam.Exam). -/
structure Exam where
  id : String
  title : String
  description : String
  questions : List Question
  grading_config : GradingConfig := {}
  passing_score : ℚ := 60
  deriving Repr, DecidableEq

/-- Exam.total_points: sum of the points of all questions. -/
def Exam.total_points (e : Exam) : ℚ :=
  (e.questions.map (fun q => q.points)).sum

/-- Exam.get_question: first question with the given id. -/
def Exam.get_question (e : Exam) (question_id : String) : Option Question :=
  e.questions.find? (fun q => q.id == question_id)

/-- A student answer to one question (models.submission.Answer). -/
structure Answer where
  question_id : String
  response : PyVal
  deriving Repr, DecidableEq

/-- A complete submission (models.submission.StudentSubmission). -/
structure StudentSubmission where
  student_id : String
  student_name : String
  exam_id : String
  answers : List Answer
  deriving Repr, DecidableEq

/-- StudentSubmission.get_answer: first answer for the given question id. -/
def StudentSubmission.get_answer (s : StudentSubmission) (question_id : String) : Option Answer :=
  s.answers.find? (fun a => a.question_id == question_id)

/-- Result of grading one answer (models.submission.GradingResult). -/
structure GradingResult where
  question_id : String
  student_answer : PyVal
  correct_answer : PyVal
  points_earned : ℚ
  points_possible : ℚ
  is_correct : Bool
  feedback : String
  detailed_analysis : Option (List (String × List String)) := Option.none
  suggestions : List String := []
  deriving Repr, DecidableEq

/-- GradingResult.percentage: guarded percentage of points earned. -/
def GradingResult.percentage (r : GradingResult) : Except String ℚ :=
  if r.points_possible = 0 then .ok 0
  else do
    let d ← pyDiv r.points_earned r.points_possible
    .ok (d * 100)

/-- Per-question-type aggregate used in ExamResult analytics. -/
structure TypePerf where
  total : ℕ
  correct : ℕ
  points_earned : ℚ
  points_possible : ℚ
  deriving Repr, DecidableEq

/-- The analytics dict attached to an ExamResult. -/
structure Analytics where
  total_questions : ℕ
  correct_answers : ℕ
  accuracy : ℚ
  performance_by_type : List (String × TypePerf)
  deriving Repr, DecidableEq

/-- Complete per-submission result (models.submission.ExamResult). -/
structure ExamResult where
  student_id : String
  student_name : String
  exam_id : String
  question_results : List GradingResult
  total_points_earned : ℚ
  total_points_possible : ℚ
  overall_feedback : String := ""
  analytics : Analytics := ⟨0, 0, 0, []⟩
  deriving Repr, DecidableEq

/-- ExamResult.percentage_score: guarded overall percentage. -/
def ExamResult.percentage_score (r : ExamResult) : Except String ℚ :=
  if r.total_points_possible = 0 then .ok 0
  else do
    let d ← pyDiv r.total_points_earned r.total_points_possible
    .ok (d * 100)

/-! ## AnswerEvaluator -/

/-- An evaluator outcome: (points_earned, is_correct, basic_feedback). -/
abbrev EvalResult := ℚ × Bool × String

/-- The emptiness test at the top of AnswerEvaluator.evaluate:
student_answer is None or student_answer == "" (a Python == comparison of
a non-string with "" is False). -/
def isEmptyAnswer : PyVal → Bool
  | .none => true
  | .str s => s == ""
  | .num _ => false

/-- AnswerEvaluator._evaluate_mcq: trimmed, optionally case-folded exact
string match; full points or zero. -/
def evaluate_mcq (cfg : GradingConfig) (q : Question) (ans : PyVal) : EvalResult :=
  let correct0 := pyStrip (pyStr q.correct_answer)
  let student0 := pyStrip (pyStr ans)
  let correct := if cfg.case_sensitive then correct0 else pyLower correct0
  let student := if cfg.case_sensitive then student0 else pyLower student0
  let is_correct := correct == student
  let points := if is_correct then q.points else 0
  let feedback :=
    if is_correct then "Correct!"
    else "Incorrect. The correct answer is: " ++ pyStr q.correct_answer
  (points, is_correct, feedback)

/-- The synonym table mapping strings to True. -/
def trueValues : List String := ["true", "t", "yes", "y", "1", "correct"]

/-- The synonym table mapping strings to False. -/
def falseValues : List String := ["false", "f", "no", "n", "0", "incorrect"]

/-- Classify a normalized string through the synonym tables. -/
def classifyBool (s : String) : Option Bool :=
  if trueValues.contains s then some true
  else if falseValues.contains s then some false
  else Option.none

/-- AnswerEvaluator._evaluate_true_false. -/
def evaluate_true_false (_cfg : GradingConfig) (q : Question) (ans : PyVal) : EvalResult :=
  let student := pyLower (pyStrip (pyStr ans))
  let correct := pyLower (pyStrip (pyStr q.correct_answer))
  match classifyBool correct with
  | Option.none => (0, false, "Invalid correct answer format")
  | some correct_bool =>
    match classifyBool student with
    | Option.none => (0, false, "Invalid answer format. Please answer True or False")
    | some student_bool =>
      let is_correct := correct_bool == student_bool
      let points := if is_correct then q.points else 0
      let feedback :=
        if is_correct then "Correct!"
        else "Incorrect. The correct answer is: " ++ pyStr q.correct_answer
      (points, is_correct, feedback)

/-- AnswerEvaluator._evaluate_numerical: parse both sides as floats
(failure of either gives the invalid-format result), then compare with a
tolerance band of abs(correct * tolerance), tolerance taken from the
question metadata with default 0.01. -/
def evaluate_numerical (cfg : GradingConfig) (q : Question) (ans : PyVal) : EvalResult :=
  match pyFloat q.correct_answer with
  | Option.none => (0, false, "Invalid numerical format")
  | some correct =>
    match pyFloat ans with
    | Option.none => (0, false, "Invalid numerical format")
    | some student =>
      let tolerance := (q.metadata.lookup "tolerance").getD (1/100)
      let diff := |correct - student|
      let tolerance_value := |correct * tolerance|
      let is_correct := diff ≤ tolerance_value
      if is_correct then
        (q.points, true, "Correct!")
      else if diff ≤ tolerance_value * 2 ∧ cfg.enable_partial_credit then
        (q.points * (1/2), false, "Close! The exact answer is " ++ floatRepr correct)
      else
        (0, false, "Incorrect. The correct answer is: " ++ floatRepr correct)

/-- The normalization applied to each side in _evaluate_short_answer:
strip, optional whitespace collapse, optional case fold. -/
def normalizeAnswer (cfg : GradingConfig) (s : String) : String :=
  let s1 := pyStrip s
  let s2 := if cfg.ignore_whitespace then pyJoin " " (pySplit s1) else s1
  if cfg.case_sensitive then s2 else pyLower s2

/-- AnswerEvaluator._evaluate_short_answer: exact match after
normalization, else similarity bands when partial credit is enabled. -/
def evaluate_short_answer (cfg : GradingConfig) (q : Question) (ans : PyVal) : EvalResult :=
  let correct := normalizeAnswer cfg (pyStr q.correct_answer)
  let student := normalizeAnswer cfg (pyStr ans)
  if correct == student then
    (q.points, true, "Correct!")
  else if cfg.enable_partial_credit then
    let similarity := calculate_similarity correct student
    if similarity ≥ 95/100 then
      (q.points, true, "Correct!")
    else if similarity ≥ cfg.spelling_tolerance then
      (q.points * (8/10), false, "Mostly correct, minor differences from expected answer")
    else if similarity ≥ 6/10 then
      (q.points * (1/2), false, "Partially correct, but missing key elements")
    else
      (0, false, "Incorrect. Expected: " ++ pyStr q.correct_answer)
  else
    (0, false, "Incorrect. Expected: " ++ pyStr q.correct_answer)

/-- AnswerEvaluator._evaluate_essay: word-count gate, then a fixed 50%
deterministic score awaiting AI evaluation. -/
def evaluate_essay (cfg : GradingConfig) (q : Question) (ans : PyVal) : EvalResult :=
  let student_text := pyStrip (pyStr ans)
  let word_count := (pySplit student_text).length
  if word_count < cfg.min_essay_length then
    (0, false, "Answer too short. Minimum " ++ toString cfg.min_essay_length ++ " words required")
  else
    (q.points * (1/2), false, "Essay submitted. Detailed grading requires AI evaluation")

/-- AnswerEvaluator._evaluate_code: length gate, then compile() for a
syntax check.  compile() raises ValueError on a null byte in the source
text; only SyntaxError is caught, so that ValueError escapes. -/
def evaluate_code (pyCompile : String → Option String) (q : Question) (ans : PyVal) :
    Except String EvalResult :=
  let student_code := pyStrip (pyStr ans)
  if student_code.data.length < 10 then
    .ok (0, false, "Code submission too short")
  else if student_code.data.any (fun c => c = Char.ofNat 0) then
    .error "ValueError: source code string cannot contain null bytes"
  else
    match pyCompile student_code with
    | Option.none => .ok (q.points * (3/10), false, "Code syntax valid. Full evaluation requires execution")
    | some msg => .ok (0, false, "Syntax error: " ++ msg)

/-- AnswerEvaluator.evaluate: the empty-answer check runs first for every
question type, then control dispatches on the type. -/
def evaluate (pyCompile : String → Option String) (cfg : GradingConfig) (q : Question)
    (ans : PyVal) : Except String EvalResult :=
  if isEmptyAnswer ans then
    .ok (0, false, "No answer provided")
  else
    match q.question_type with
    | .multiple_choice => .ok (evaluate_mcq cfg q ans)
    | .true_false => .ok (evaluate_true_false cfg q ans)
    | .numerical => .ok (evaluate_numerical cfg q ans)
    | .short_answer => .ok (evaluate_short_answer cfg q ans)
    | .essay => .ok (evaluate_essay cfg q ans)
    | .code => evaluate_code pyCompile q ans

/-! ## ExamGrader -/

/-- A successful response of the AI scoring oracle (the dict produced by
OpenAIGradingClient.grade_answer, whose parser guarantees the
points_earned, is_correct and feedback fields; analysis and suggestions
may be absent and are defaulted at the use site). -/
structure AIResult where
  points_earned : ℚ
  is_correct : Bool
  feedback : String
  analysis : Option (List (String × List String)) := Option.none
  suggestions : Option (List String) := Option.none
  deriving Repr, DecidableEq

/-- The AI scoring oracle, an external collaborator: per-answer grading
(given the question, the student answer and the strictness) and the
narrative overall-feedback capability (given exam title, total score, max
score and per-question summaries).  Either call may fail. -/
structure OracleClient where
  gradeAnswer : Question → PyVal → ℚ → Except String AIResult
  overallFeedback : String → ℚ → ℚ → List (String × Bool × String) → Except String String

/-- The question types that always require AI grading. -/
def needs_ai_types (t : QuestionType) : Bool :=
  match t with
  | .essay => true
  | .code => true
  | _ => false

/-- The GradingResult built from the deterministic evaluation alone. -/
def basicGradingResult (q : Question) (ans : PyVal) (r : EvalResult) : GradingResult :=
  { question_id := q.id
    student_answer := ans
    correct_answer := q.correct_answer
    points_earned := r.1
    points_possible := q.points
    is_correct := r.2.1
    feedback := r.2.2 }

/-- The GradingResult built from a successful oracle response: points,
correctness, feedback, analysis and suggestions all come from the oracle. -/
def oracleGradingResult (q : Question) (ans : PyVal) (ai : AIResult) : GradingResult :=
  { question_id := q.id
    student_answer := ans
    correct_answer := q.correct_answer
    points_earned := ai.points_earned
    points_possible := q.points
    is_correct := ai.is_correct
    feedback := ai.feedback
    detailed_analysis := some (ai.analysis.getD [])
    suggestions := ai.suggestions.getD [] }

/-- ExamGrader._grade_single_answer.  The Bool in the result records
whether the oracle method gradeAnswer was actually called.  A raised
oracle exception is caught at the call site and the deterministic result
is returned unchanged (the attribute error raised when no client exists
is caught by the same handler). -/
def grade_single_answer (pyCompile : String → Option String) (e : Exam)
    (client : Option OracleClient) (use_ai : Bool) (q : Question) (ans : PyVal) :
    Except String (GradingResult × Bool) :=
  match evaluate pyCompile e.grading_config q ans with
  | .error err => .error err
  | .ok res =>
    let basic := basicGradingResult q ans res
    if use_ai && (needs_ai_types q.question_type || !res.2.1) then
      match client with
      | some c =>
        match c.gradeAnswer q ans e.grading_config.strictness with
        | .ok ai => .ok (oracleGradingResult q ans ai, true)
        | .error _ => .ok (basic, true)
      | Option.none => .ok (basic, false)
    else
      .ok (basic, false)

/-- The GradingResult synthesized for an unanswered question. -/
def unanswered_result (q : Question) : GradingResult :=
  { question_id := q.id
    student_answer := PyVal.none
    correct_answer := q.correct_answer
    points_earned := 0
    points_possible := q.points
    is_correct := false
    feedback := "Question not answered" }

/-- The per-question body of the grade_submission loop: synthesize the
unanswered result, or grade the found answer.  The Bool records whether
the oracle was invoked for this question. -/
def grade_question (pyCompile : String → Option String) (e : Exam)
    (client : Option OracleClient) (use_ai : Bool) (s : StudentSubmission) (q : Question) :
    Except String (GradingResult × Bool) :=
  match s.get_answer q.id with
  | Option.none => .ok (unanswered_result q, false)
  | some a => grade_single_answer pyCompile e client use_ai q a.response

/-- Round half to even, as Python string formatting of these values does. -/
def roundHalfEven (x : ℚ) : ℤ :=
  let fl := ⌊x⌋
  let frac := x - (fl : ℚ)
  if frac > 1/2 then fl + 1
  else if frac < 1/2 then fl
  else if fl % 2 = 0 then fl else fl + 1

/-- Fixed-point rendering of a rational with the given number of decimal
places, modelling the Python format specs .1f and .0f (exact on the
decimally-representable values the grader formats). -/
def formatFixed (prec : ℕ) (q : ℚ) : String :=
  let neg := q < 0
  let n := roundHalfEven (|q| * (10 : ℚ) ^ prec)
  let nn := n.toNat
  let sign := if neg ∧ nn ≠ 0 then "-" else ""
  if prec = 0 then sign ++ toString nn
  else
    let ds0 := (toString nn).data
    let ds := if ds0.length < prec + 1 then List.replicate (prec + 1 - ds0.length) '0' ++ ds0 else ds0
    sign ++ String.mk (ds.take (ds.length - prec)) ++ "." ++ String.mk (ds.drop (ds.length - prec))

/-- The percentage band selection in _generate_overall_feedback, giving
the grade CSS class and the performance text. -/
def grade_band (percentage : ℚ) : String × String :=
  if percentage ≥ 90 then ("grade-excellent", "🌟 Excellent work!")
  else if percentage ≥ 80 then ("grade-good", "👍 Good job!")
  else if percentage ≥ 70 then ("grade-average", "Satisfactory performance.")
  else if percentage ≥ 60 then ("grade-pass", "Passing, but there\x27s room for improvement.")
  else ("grade-fail", "Additional study recommended.")

/-- The opening text of the first feedback block. -/
def part1_head : String := "\n            <div class=\"result-summary "

/-- The first HTML block of the overall feedback (score header). -/
def feedback_part1 (grade_class performance_text : String)
    (total_earned total_possible percentage : ℚ) : String :=
  part1_head ++
    (grade_class ++ "\">\n                <div class=\"score-header\">\n                    <h3>Overall Performance</h3>\n                    <div class=\"score-large\">\n                        " ++
      formatFixed 1 total_earned ++ " <span class=\"text-muted\">/ " ++
      formatFixed 1 total_possible ++ "</span>\n                    </div>\n                    <div class=\"percentage-badge\">" ++
      formatFixed 1 percentage ++ "%</div>\n                </div>\n                <div class=\"performance-text\">\n                    <strong>" ++
      performance_text ++ "</strong>\n                </div>\n            </div>\n            ")

/-- The second HTML block of the overall feedback (quick stats). -/
def feedback_part2 (correct_count total_questions : ℕ) (accuracy_pct : ℚ) : String :=
  "\n            <div class=\"stats-bar\">\n                <div class=\"stat-item\">\n                    <span class=\"icon\">✅</span>\n                    <span>Correct: <strong>" ++
    toString correct_count ++ "/" ++ toString total_questions ++
    "</strong></span>\n                </div>\n                <div class=\"stat-item\">\n                    <span class=\"icon\">📊</span>\n                    <span>Accuracy: <strong>" ++
    formatFixed 0 accuracy_pct ++ "%</strong></span>\n                </div>\n            </div>\n            "

/-- Lazy pairing of double-asterisk markers, as the non-greedy regex
substitution does: segments pair up left to right, an unmatched final
marker stays literal. -/
def boldSegments : List String → String
  | [] => ""
  | [x] => x
  | [x, y] => x ++ "**" ++ y
  | x :: y :: rest => x ++ "<strong>" ++ y ++ "</strong>" ++ boldSegments rest

/-- The regex substitution replacing paired double-asterisk spans with
strong tags. -/
def boldToStrong (s : String) : String := boldSegments (splitOnStr s "**")

/-- The formatting applied to the oracle narrative before embedding it:
bold markers, then bullet points, then newlines. -/
def format_ai_feedback (txt : String) : String :=
  pyReplace (pyReplace (boldToStrong txt) "- " "<br>• ") "\n" "<br>"

/-- The HTML block wrapping the formatted oracle narrative. -/
def ai_feedback_part (formatted : String) : String :=
  "\n                    <div class=\"ai-feedback-container\">\n                        <h4>🤖 AI Analysis & Recommendations</h4>\n                        <div class=\"ai-content\">\n                            " ++
    formatted ++ "\n                        </div>\n                    </div>\n                    "

/-- The alert appended when the narrative oracle call fails. -/
def ai_unavailable_part : String :=
  "<div class=\"alert alert-warning\">AI Feedback unavailable at this time.</div>"

/-- ExamGrader._generate_overall_feedback.  The accuracy line divides by
the number of question results without a guard, so an exam with no
questions raises ZeroDivisionError here; the oracle narrative call is
guarded and its failure degrades to an alert block. -/
def generate_overall_feedback (e : Exam) (client : Option OracleClient)
    (results : List GradingResult) (total_earned total_possible : ℚ) (use_ai : Bool) :
    Except String String :=
  let percentage := if total_possible > 0 then total_earned / total_possible * 100 else 0
  let band := grade_band percentage
  let p1 := feedback_part1 band.1 band.2 total_earned total_possible percentage
  let correct_count := (results.filter (fun r => r.is_correct)).length
  let total_questions := results.length
  match pyDiv (correct_count : ℚ) (total_questions : ℚ) with
  | .error err => .error err
  | .ok acc =>
    let p2 := feedback_part2 correct_count total_questions (acc * 100)
    let tail : List String :=
      if use_ai then
        match client with
        | some c =>
          let simple := results.map (fun r =>
            (r.question_id, r.is_correct, floatRepr r.points_earned ++ "/" ++ floatRepr r.points_possible))
          match c.overallFeedback e.title total_earned total_possible simple with
          | .ok txt => [ai_feedback_part (format_ai_feedback txt)]
          | .error _ => [ai_unavailable_part]
        | Option.none => []
      else []
    .ok (pyJoin "\n" ([p1, p2] ++ tail))

/-- Insertion-order-preserving update of the performance_by_type dict. -/
def assocUpdate (m : List (String × TypePerf)) (k : String) (f : TypePerf → TypePerf) :
    List (String × TypePerf) :=
  match m with
  | [] => [(k, f ⟨0, 0, 0, 0⟩)]
  | (k1, v) :: rest => if k1 = k then (k1, f v) :: rest else (k1, v) :: assocUpdate rest k f

/-- ExamGrader._generate_analytics. -/
def generate_analytics (e : Exam) (results : List GradingResult) : Analytics :=
  let total_questions := results.length
  let correct_answers := (results.filter (fun r => r.is_correct)).length
  let perf := results.foldl (fun m r =>
    match e.get_question r.question_id with
    | some q =>
      assocUpdate m q.question_type.value (fun tp =>
        { total := tp.total + 1
          correct := tp.correct + (if r.is_correct then 1 else 0)
          points_earned := tp.points_earned + r.points_earned
          points_possible := tp.points_possible + r.points_possible })
    | Option.none => m) []
  { total_questions := total_questions
    correct_answers := correct_answers
    accuracy := if total_questions > 0 then (correct_answers : ℚ) / (total_questions : ℚ) else 0
    performance_by_type := perf }

/-- ExamGrader.grade_submission: resolve the AI flag (downgrade when no
client is available), grade each exam question in declared order, total
the earned points, recompute the possible total from the exam, generate
the overall feedback and the analytics. -/
def grade_submission (pyCompile : String → Option String) (e : Exam)
    (ai_client : Option OracleClient) (s : StudentSubmission) (use_ai : Option Bool) :
    Except String ExamResult :=
  let use_ai_grading := (use_ai.getD e.grading_config.ai_grading_enabled) && ai_client.isSome
  match mapExcept (grade_question pyCompile e ai_client use_ai_grading s) e.questions with
  | .error err => .error err
  | .ok resultsI =>
    let question_results := resultsI.map (fun p => p.1)
    let total_earned := (question_results.map (fun r => r.points_earned)).sum
    let total_possible := e.total_points
    match generate_overall_feedback e ai_client question_results total_earned total_possible
        use_ai_grading with
    | .error err => .error err
    | .ok overall_feedback =>
      .ok { student_id := s.student_id
            student_name := s.student_name
            exam_id := e.id
            question_results := question_results
            total_points_earned := total_earned
            total_points_possible := total_possible
            overall_feedback := overall_feedback
            analytics := generate_analytics e question_results }

/-- ExamGrader.grade_multiple_submissions: a plain loop over the
submissions with no per-submission exception isolation. -/
def grade_multiple_submissions (pyCompile : String → Option String) (e : Exam)
    (ai_client : Option OracleClient) (subs : List StudentSubmission) (use_ai : Option Bool) :
    Except String (List ExamResult) :=
  mapExcept (fun sub => grade_submission pyCompile e ai_client sub use_ai) subs

/-! ## ExamAnalytics -/

/-- Model of statistics.mean, which raises on an empty collection. -/
def mean (xs : List ℚ) : Except String ℚ :=
  if xs.length = 0 then .error "StatisticsError: mean requires at least one data point"
  else pyDiv xs.sum (xs.length : ℚ)

/-- Insert into a sorted list of rationals. -/
def insertSorted (x : ℚ) : List ℚ → List ℚ
  | [] => [x]
  | y :: ys => if x ≤ y then x :: y :: ys else y :: insertSorted x ys

/-- Sort a list of rationals ascending. -/
def sortRats (xs : List ℚ) : List ℚ := xs.foldr insertSorted []

/-- Model of statistics.median: sort, take the middle element or the mean
of the two middle elements; raises on empty data. -/
def median (xs : List ℚ) : Except String ℚ :=
  let s := sortRats xs
  let n := s.length
  if n = 0 then .error "StatisticsError: no median for empty data"
  else if n % 2 = 1 then .ok (s.getD (n / 2) 0)
  else .ok ((s.getD (n / 2 - 1) 0 + s.getD (n / 2) 0) / 2)

/-- Model of statistics.stdev: the square root of the sample variance,
raising when fewer than two data points are given.  The square root on
rationals is supplied as a parameter; no modelled claim inspects the
value it produces. -/
def stdev (sqrtFn : ℚ → ℚ) (xs : List ℚ) : Except String ℚ :=
  if xs.length < 2 then .error "StatisticsError: stdev requires at least two data points"
  else
    match mean xs with
    | .error err => .error err
    | .ok m => .ok (sqrtFn ((xs.map (fun x => (x - m) ^ 2)).sum / ((xs.length : ℚ) - 1)))

/-- Model of Python min() on a list, which raises on empty input. -/
def listMin (xs : List ℚ) : Except String ℚ :=
  match xs with
  | [] => .error "ValueError: min() arg is an empty sequence"
  | x :: rest => .ok (rest.foldl min x)

/-- Model of Python max() on a list, which raises on empty input. -/
def listMax (xs : List ℚ) : Except String ℚ :=
  match xs with
  | [] => .error "ValueError: max() arg is an empty sequence"
  | x :: rest => .ok (rest.foldl max x)

/-- The class-statistics record (the dict returned for nonempty results). -/
structure ClassStats where
  student_count : ℕ
  mean_score : ℚ
  median_score : ℚ
  std_dev : ℚ
  min_score : ℚ
  max_score : ℚ
  mean_points : ℚ
  passing_count : ℕ
  passing_rate : ℚ
  deriving Repr, DecidableEq

/-- ExamAnalytics.get_class_statistics: an empty results collection gives
the explicit empty dict (modelled as Option.none) before any statistic is
computed; otherwise the statistics of the percentage scores, with the
sample standard deviation replaced by 0 when only one score exists. -/
def get_class_statistics (sqrtFn : ℚ → ℚ) (e : Exam) (results : List ExamResult) :
    Except String (Option ClassStats) :=
  if results.length = 0 then .ok Option.none
  else
    match mapExcept ExamResult.percentage_score results with
    | .error err => .error err
    | .ok scores =>
      let total_points := results.map (fun r => r.total_points_earned)
      match mean scores, median scores,
          (if scores.length > 1 then stdev sqrtFn scores else .ok 0),
          listMin scores, listMax scores, mean total_points with
      | .ok m, .ok md, .ok sd, .ok mn, .ok mx, .ok mp =>
        let passing := (scores.filter (fun x => x ≥ e.passing_score)).length
        match pyDiv (passing : ℚ) (scores.length : ℚ) with
        | .error err => .error err
        | .ok rate =>
          .ok (some
            { student_count := results.length
              mean_score := m
              median_score := md
              std_dev := sd
              min_score := mn
              max_score := mx
              mean_points := mp
              passing_count := passing
              passing_rate := rate * 100 })
      | .error err, _, _, _, _, _ => .error err
      | _, .error err, _, _, _, _ => .error err
      | _, _, .error err, _, _, _ => .error err
      | _, _, _, .error err, _, _ => .error err
      | _, _, _, _, .error err, _ => .error err
      | _, _, _, _, _, .error err => .error err

/-! ## Statement-level helper definitions -/

/-- Whether the pattern occurs contiguously inside the list. -/
def containsSub (pat : List Char) : List Char → Bool
  | [] => pat.isEmpty
  | c :: rest => isPrefixCheck pat (c :: rest) || containsSub pat rest

/-- Whether a string contains a rendered div tag, the marker of the HTML
markup the feedback generator produces. -/
def containsDivTag (s : String) : Bool := containsSub "<div".toList s.toList

/-- Whether a grading run succeeded and its result satisfies the check. -/
def checkOk (x : Except String ExamResult) (p : ExamResult → Bool) : Bool :=
  match x with
  | .ok r => p r
  | .error _ => false

/-- Extract the result of a successful grading run, with a fallback. -/
def okOr (x : Except String ExamResult) (d : ExamResult) : ExamResult :=
  match x with
  | .ok r => r
  | .error _ => d

/-- The numerical grading rule exactly as the specification claim words
it: tolerance factor t from the question metadata (default 0.01),
tol = t * abs(correct); full credit within tol, half credit (when partial
credit is enabled) within 2 * tol, else nothing.  Only (points, correct)
are described by the bands.  This definition follows the claim, not the
source, for comparison against the source evaluator. -/
def numerical_claimed_rule (cfg : GradingConfig) (q : Question) (ans : PyVal) : ℚ × Bool :=
  match pyFloat q.correct_answer, pyFloat ans with
  | some c, some x =>
    let t := (q.metadata.lookup "tolerance").getD (1/100)
    let tol := t * |c|
    if |x - c| ≤ tol then (q.points, true)
    else if cfg.enable_partial_credit ∧ |x - c| ≤ 2 * tol then (q.points * (1/2), false)
    else (0, false)
  | _, _ => (0, false)

/-- The amended numerical grading rule: identical to the claimed rule
except that the tolerance band is tol = abs(t) * abs(correct), which is
what abs(correct * tolerance) computes. -/
def numerical_amended_rule (cfg : GradingConfig) (q : Question) (ans : PyVal) : ℚ × Bool :=
  match pyFloat q.correct_answer, pyFloat ans with
  | some c, some x =>
    let t := (q.metadata.lookup "tolerance").getD (1/100)
    let tol := |t| * |c|
    if |x - c| ≤ tol then (q.points, true)
    else if cfg.enable_partial_credit ∧ |x - c| ≤ 2 * tol then (q.points * (1/2), false)
    else (0, false)
  | _, _ => (0, false)

/-! ## Concrete instances used by witnesses and counterexamples -/

/-- A syntax checker that accepts everything (no modelled input is
syntactically invalid Python). -/
def wpc : String → Option String := fun _ => Option.none

/-- A fallback ExamResult for result extraction. -/
def junkExamResult : ExamResult :=
  { student_id := "", student_name := "", exam_id := "",
    question_results := [], total_points_earned := 0, total_points_possible := 0 }

/-- A fallback GradingResult. -/
def junkGradingResult : GradingResult :=
  { question_id := "", student_answer := PyVal.none, correct_answer := PyVal.none,
    points_earned := 0, points_possible := 0, is_correct := false, feedback := "" }

/-- An essay question used to exercise the empty-answer gate. -/
def w5q : Question :=
  { id := "e1", text := "Discuss.", question_type := .essay,
    points := 20, correct_answer := PyVal.str "reference essay" }

/-- A numerical question whose metadata carries a negative tolerance. -/
def w6q : Question :=
  { id := "n0", text := "what is 100?", question_type := .numerical,
    points := 5, correct_answer := PyVal.num 100, metadata := [("tolerance", -(1/100))] }

/-- A short-answer question with a reference answer. -/
def w7q : Question :=
  { id := "s1", text := "organelle?", question_type := .short_answer,
    points := 10, correct_answer := PyVal.str "mitochondria" }

/-- A multiple-choice question for the oracle-escalation cases. -/
def w2q : Question :=
  { id := "q1", text := "pick", question_type := .multiple_choice,
    points := 4, correct_answer := PyVal.str "a", options := some ["a", "b"] }

/-- An exam holding the multiple-choice question, AI grading enabled. -/
def w2exam : Exam :=
  { id := "ex2", title := "Quiz", description := "d", questions := [w2q] }

/-- A submission leaving w2q unanswered. -/
def w2subNone : StudentSubmission :=
  { student_id := "s1", student_name := "Ann", exam_id := "ex2", answers := [] }

/-- A submission answering w2q incorrectly. -/
def w2subWrong : StudentSubmission :=
  { student_id := "s2", student_name := "Bob", exam_id := "ex2",
    answers := [{ question_id := "q1", response := PyVal.str "b" }] }

/-- An oracle whose calls always raise. -/
def wOracleErr : OracleClient :=
  { gradeAnswer := fun _ _ _ => .error "APIError: connection reset"
    overallFeedback := fun _ _ _ _ => .error "APIError: connection reset" }

/-- A numerical question worth 10 points. -/
def w1q : Question :=
  { id := "n1", text := "what is 42?", question_type := .numerical,
    points := 10, correct_answer := PyVal.num 42 }

/-- An exam holding the numerical question, AI grading enabled. -/
def w1exam : Exam :=
  { id := "ex1", title := "Numbers", description := "d", questions := [w1q] }

/-- A submission answering w1q incorrectly, which escalates to the oracle. -/
def w1subWrong : StudentSubmission :=
  { student_id := "s9", student_name := "Eve", exam_id := "ex1",
    answers := [{ question_id := "n1", response := PyVal.str "41" }] }

/-- An oracle that awards 11 points on every call: more than w1q offers. -/
def wOracleBad : OracleClient :=
  { gradeAnswer := fun _ _ _ =>
      .ok { points_earned := 11, is_correct := true, feedback := "Great" }
    overallFeedback := fun _ _ _ _ => .ok "Nice **work**\n- keep going" }

/-- An oracle that awards a constant 7 points, within range for w1exam. -/
def wOracleGood : OracleClient :=
  { gradeAnswer := fun _ _ _ =>
      .ok { points_earned := 7, is_correct := false, feedback := "Partially right" }
    overallFeedback := fun _ _ _ _ => .ok "Solid effort" }

/-- The exam result of grading w1subWrong with the in-range oracle. -/
def w1resGood : ExamResult :=
  okOr (grade_submission wpc w1exam (some wOracleGood) w1subWrong Option.none) junkExamResult

/-- A code question worth 10 points. -/
def w3q : Question :=
  { id := "c1", text := "write code", question_type := .code,
    points := 10, correct_answer := PyVal.str "print(1)" }

/-- An exam holding the code question, AI grading disabled. -/
def w3exam : Exam :=
  { id := "ex3", title := "Code", description := "d", questions := [w3q],
    grading_config := { ai_grading_enabled := false } }

/-- A submission whose code answer contains a null byte: compile() raises
ValueError, which _evaluate_code does not catch. -/
def w3subBad : StudentSubmission :=
  { student_id := "s10", student_name := "Mallory", exam_id := "ex3",
    answers := [{ question_id := "c1",
                  response := PyVal.str ("print(1)#aa" ++ String.mk [Char.ofNat 0] ++ "bb") }] }

/-- A submission with an ordinary code answer that grades fine. -/
def w3subGood : StudentSubmission :=
  { student_id := "s11", student_name := "Trent", exam_id := "ex3",
    answers := [{ question_id := "c1", response := PyVal.str "print(12345)" }] }

/-- A two-question exam (multiple choice and numerical), AI disabled. -/
def w4exam : Exam :=
  { id := "ex4", title := "Mixed", description := "d", questions := [w2q, w1q],
    grading_config := { ai_grading_enabled := false } }

/-- A submission answering only the first question of w4exam. -/
def w4sub : StudentSubmission :=
  { student_id := "s12", student_name := "Pat", exam_id := "ex4",
    answers := [{ question_id := "q1", response := PyVal.str "a" }] }

/-- The exam result of grading w4sub against w4exam. -/
def w4res : ExamResult :=
  okOr (grade_submission wpc w4exam Option.none w4sub Option.none) junkExamResult

/-- The exam result used by the markup witness. -/
def w9res : ExamResult :=
  okOr (grade_submission wpc w2exam Option.none w2subWrong (some false)) junkExamResult

/-- The value the guarded percentage computation produces. -/
def pctVal (er : ExamResult) : ℚ :=
  if er.total_points_possible = 0 then 0
  else er.total_points_earned / er.total_points_possible * 100

/-! ## General lemmas -/

theorem percentage_score_eval (er : ExamResult) :
    ExamResult.percentage_score er = .ok (pctVal er) := by
  unfold ExamResult.percentage_score pctVal
  split
  · rfl
  · rename_i h0
    unfold pyDiv
    rw [if_neg h0]
    rfl

theorem percentage_eval (r : GradingResult) :
    GradingResult.percentage r =
      .ok (if r.points_possible = 0 then 0 else r.points_earned / r.points_possible * 100) := by
  unfold GradingResult.percentage
  split
  · rfl
  · rename_i h0
    unfold pyDiv
    rw [if_neg h0]
    rfl

theorem mapExcept_ok_length {α β : Type} {f : α → Except String β} :
    ∀ {xs : List α} {ys : List β}, mapExcept f xs = .ok ys → ys.length = xs.length := by
  intro xs
  induction xs with
  | nil =>
    intro ys h
    simp only [mapExcept, Except.ok.injEq] at h
    subst h
    rfl
  | cons x rest ih =>
    intro ys h
    simp only [mapExcept] at h
    cases hfx : f x with
    | error e => rw [hfx] at h; cases h
    | ok y =>
      rw [hfx] at h
      cases hrec : mapExcept f rest with
      | error e => rw [hrec] at h; cases h
      | ok ys2 =>
        rw [hrec] at h
        simp only [Except.ok.injEq] at h
        subst h
        simp [ih hrec]

theorem mapExcept_ok_get {α β : Type} {f : α → Except String β} :
    ∀ {xs : List α} {ys : List β}, mapExcept f xs = .ok ys →
      ∀ i (h1 : i < xs.length) (h2 : i < ys.length),
        f (xs.get ⟨i, h1⟩) = .ok (ys.get ⟨i, h2⟩) := by
  intro xs
  induction xs with
  | nil =>
    intro ys h i h1 h2
    exact absurd h1 (by simp)
  | cons x rest ih =>
    intro ys h i h1 h2
    simp only [mapExcept] at h
    cases hfx : f x with
    | error e => rw [hfx] at h; cases h
    | ok y =>
      rw [hfx] at h
      cases hrec : mapExcept f rest with
      | error e => rw [hrec] at h; cases h
      | ok ys2 =>
        rw [hrec] at h
        simp only [Except.ok.injEq] at h
        subst h
        cases i with
        | zero => simpa using hfx
        | succ j =>
          exact ih hrec j (by simpa using h1) (by simpa using h2)

theorem mapExcept_ok_mem {α β : Type} {f : α → Except String β} :
    ∀ {xs : List α} {ys : List β}, mapExcept f xs = .ok ys →
      ∀ y ∈ ys, ∃ x ∈ xs, f x = .ok y := by
  intro xs
  induction xs with
  | nil =>
    intro ys h y hy
    simp only [mapExcept, Except.ok.injEq] at h
    subst h
    cases hy
  | cons x rest ih =>
    intro ys h y hy
    simp only [mapExcept] at h
    cases hfx : f x with
    | error e => rw [hfx] at h; cases h
    | ok y0 =>
      rw [hfx] at h
      cases hrec : mapExcept f rest with
      | error e => rw [hrec] at h; cases h
      | ok ys2 =>
        rw [hrec] at h
        simp only [Except.ok.injEq] at h
        subst h
        rcases List.mem_cons.mp hy with h0 | h0
        · exact ⟨x, List.mem_cons_self x rest, h0 ▸ hfx⟩
        · obtain ⟨x2, hx2, hfx2⟩ := ih hrec y h0
          exact ⟨x2, List.mem_cons_of_mem x hx2, hfx2⟩

theorem mapExcept_ok_of_mem {α β : Type} {f : α → Except String β} :
    ∀ {xs : List α} {ys : List β}, mapExcept f xs = .ok ys →
      ∀ x ∈ xs, ∃ y, f x = .ok y := by
  intro xs
  induction xs with
  | nil =>
    intro ys h x hx
    cases hx
  | cons x0 rest ih =>
    intro ys h x hx
    simp only [mapExcept] at h
    cases hfx : f x0 with
    | error e => rw [hfx] at h; cases h
    | ok y0 =>
      rw [hfx] at h
      cases hrec : mapExcept f rest with
      | error e => rw [hrec] at h; cases h
      | ok ys2 =>
        rcases List.mem_cons.mp hx with h0 | h0
        · exact ⟨y0, h0 ▸ hfx⟩
        · exact ih hrec x h0

theorem isPrefixCheck_append {pat : List Char} :
    ∀ {a : List Char} (b : List Char), isPrefixCheck pat a = true →
      isPrefixCheck pat (a ++ b) = true := by
  induction pat with
  | nil => intro a b _; rfl
  | cons p ps ih =>
    intro a b h
    cases a with
    | nil => cases h
    | cons c cs =>
      simp only [isPrefixCheck, Bool.and_eq_true] at h
      simp only [List.cons_append, isPrefixCheck, Bool.and_eq_true]
      exact ⟨h.1, ih b h.2⟩

theorem containsSub_nil_pat : ∀ (l : List Char), containsSub [] l = true := by
  intro l
  induction l with
  | nil => rfl
  | cons c rest ih => simp [containsSub, isPrefixCheck]

theorem containsSub_append_left {pat : List Char} :
    ∀ {a : List Char} (b : List Char), containsSub pat a = true →
      containsSub pat (a ++ b) = true := by
  intro a
  induction a with
  | nil =>
    intro b h
    simp only [containsSub, List.isEmpty_iff] at h
    subst h
    simpa using containsSub_nil_pat b
  | cons c rest ih =>
    intro b h
    simp only [containsSub, Bool.or_eq_true] at h
    simp only [List.cons_append, containsSub, Bool.or_eq_true]
    rcases h with h | h
    · exact Or.inl (by simpa using isPrefixCheck_append (a := c :: rest) b h)
    · exact Or.inr (ih b h)

theorem containsDivTag_append_left (a b : String) (h : containsDivTag a = true) :
    containsDivTag (a ++ b) = true := by
  unfold containsDivTag at h ⊢
  rw [show (a ++ b).toList = a.toList ++ b.toList from String.data_append a b]
  exact containsSub_append_left b.toList h

/-! ## Evaluator bounds -/

theorem evaluate_mcq_bounds (cfg : GradingConfig) (q : Question) (ans : PyVal)
    (hq : 0 < q.points) :
    0 ≤ (evaluate_mcq cfg q ans).1 ∧ (evaluate_mcq cfg q ans).1 ≤ q.points := by
  unfold evaluate_mcq
  dsimp only
  split <;> split <;> first
    | exact ⟨hq.le, le_refl _⟩
    | exact ⟨le_refl _, hq.le⟩

theorem evaluate_true_false_bounds (cfg : GradingConfig) (q : Question) (ans : PyVal)
    (hq : 0 < q.points) :
    0 ≤ (evaluate_true_false cfg q ans).1 ∧ (evaluate_true_false cfg q ans).1 ≤ q.points := by
  unfold evaluate_true_false
  dsimp only
  cases classifyBool (pyLower (pyStrip (pyStr q.correct_answer))) with
  | none => exact ⟨le_refl _, hq.le⟩
  | some cb =>
    cases classifyBool (pyLower (pyStrip (pyStr ans))) with
    | none => exact ⟨le_refl _, hq.le⟩
    | some sb =>
      dsimp only
      split
      · exact ⟨hq.le, le_refl _⟩
      · exact ⟨le_refl _, hq.le⟩

theorem evaluate_numerical_bounds (cfg : GradingConfig) (q : Question) (ans : PyVal)
    (hq : 0 < q.points) :
    0 ≤ (evaluate_numerical cfg q ans).1 ∧ (evaluate_numerical cfg q ans).1 ≤ q.points := by
  unfold evaluate_numerical
  cases pyFloat q.correct_answer with
  | none => exact ⟨le_refl _, hq.le⟩
  | some c =>
    cases pyFloat ans with
    | none => exact ⟨le_refl _, hq.le⟩
    | some x =>
      dsimp only
      split
      · exact ⟨hq.le, le_refl _⟩
      · split
        · constructor <;> [linarith; linarith]
        · exact ⟨le_refl _, hq.le⟩

theorem evaluate_short_answer_bounds (cfg : GradingConfig) (q : Question) (ans : PyVal)
    (hq : 0 < q.points) :
    0 ≤ (evaluate_short_answer cfg q ans).1 ∧ (evaluate_short_answer cfg q ans).1 ≤ q.points := by
  unfold evaluate_short_answer
  dsimp only
  split
  · exact ⟨hq.le, le_refl _⟩
  · split
    · split
      · exact ⟨hq.le, le_refl _⟩
      · split
        · constructor <;> [linarith; linarith]
        · split
          · constructor <;> [linarith; linarith]
          · exact ⟨le_refl _, hq.le⟩
    · exact ⟨le_refl _, hq.le⟩

theorem evaluate_essay_bounds (cfg : GradingConfig) (q : Question) (ans : PyVal)
    (hq : 0 < q.points) :
    0 ≤ (evaluate_essay cfg q ans).1 ∧ (evaluate_essay cfg q ans).1 ≤ q.points := by
  unfold evaluate_essay
  dsimp only
  split
  · exact ⟨le_refl _, hq.le⟩
  · constructor <;> [linarith; linarith]

theorem evaluate_code_bounds (pc : String → Option String) (q : Question) (ans : PyVal)
    (hq : 0 < q.points) {res : EvalResult} (h : evaluate_code pc q ans = .ok res) :
    0 ≤ res.1 ∧ res.1 ≤ q.points := by
  unfold evaluate_code at h
  dsimp only at h
  split at h
  · cases h; exact ⟨le_refl _, hq.le⟩
  · split at h
    · cases h
    · split at h
      · cases h; constructor <;> [linarith; linarith]
      · cases h; exact ⟨le_refl _, hq.le⟩

theorem evaluate_bounds (pc : String → Option String) (cfg : GradingConfig) (q : Question)
    (ans : PyVal) (hq : 0 < q.points) {res : EvalResult}
    (h : evaluate pc cfg q ans = .ok res) : 0 ≤ res.1 ∧ res.1 ≤ q.points := by
  unfold evaluate at h
  split at h
  · cases h; exact ⟨le_refl _, hq.le⟩
  · split at h
    · cases h; exact evaluate_mcq_bounds cfg q ans hq
    · cases h; exact evaluate_true_false_bounds cfg q ans hq
    · cases h; exact evaluate_numerical_bounds cfg q ans hq
    · cases h; exact evaluate_short_answer_bounds cfg q ans hq
    · cases h; exact evaluate_essay_bounds cfg q ans hq
    · exact evaluate_code_bounds pc q ans hq h

/-! ## Grader lemmas -/

theorem grade_question_ok_shape {pc : String → Option String} {e : Exam}
    {cl : Option OracleClient} {ua : Bool} {s : StudentSubmission} {q : Question}
    {gr : GradingResult} {b : Bool}
    (h : grade_question pc e cl ua s q = .ok (gr, b)) :
    gr.question_id = q.id ∧ gr.points_possible = q.points := by
  unfold grade_question at h
  cases hga : s.get_answer q.id with
  | none =>
    rw [hga] at h
    simp only [Except.ok.injEq, Prod.mk.injEq] at h
    rw [← h.1]
    exact ⟨rfl, rfl⟩
  | some a =>
    rw [hga] at h
    dsimp only at h
    unfold grade_single_answer at h
    cases hev : evaluate pc e.grading_config q a.response with
    | error err => rw [hev] at h; cases h
    | ok res =>
      rw [hev] at h
      dsimp only at h
      split at h
      · cases hcl : cl with
        | none =>
          rw [hcl] at h
          simp only [Except.ok.injEq, Prod.mk.injEq] at h
          rw [← h.1]
          exact ⟨rfl, rfl⟩
        | some c =>
          rw [hcl] at h
          dsimp only at h
          cases hor : c.gradeAnswer q a.response e.grading_config.strictness with
          | ok ai =>
            rw [hor] at h
            simp only [Except.ok.injEq, Prod.mk.injEq] at h
            rw [← h.1]
            exact ⟨rfl, rfl⟩
          | error err =>
            rw [hor] at h
            simp only [Except.ok.injEq, Prod.mk.injEq] at h
            rw [← h.1]
            exact ⟨rfl, rfl⟩
      · simp only [Except.ok.injEq, Prod.mk.injEq] at h
        rw [← h.1]
        exact ⟨rfl, rfl⟩

theorem grade_question_bounds {pc : String → Option String} {e : Exam}
    {cl : Option OracleClient} {ua : Bool} {s : StudentSubmission} {q : Question}
    {gr : GradingResult} {b : Bool}
    (hq : 0 < q.points)
    (hor : ∀ c, cl = some c → ∀ ans st res, c.gradeAnswer q ans st = .ok res →
      0 ≤ res.points_earned ∧ res.points_earned ≤ q.points)
    (h : grade_question pc e cl ua s q = .ok (gr, b)) :
    0 ≤ gr.points_earned ∧ gr.points_earned ≤ q.points := by
  unfold grade_question at h
  cases hga : s.get_answer q.id with
  | none =>
    rw [hga] at h
    simp only [Except.ok.injEq, Prod.mk.injEq] at h
    rw [← h.1]
    exact ⟨le_refl _, hq.le⟩
  | some a =>
    rw [hga] at h
    dsimp only at h
    unfold grade_single_answer at h
    cases hev : evaluate pc e.grading_config q a.response with
    | error err => rw [hev] at h; cases h
    | ok res =>
      rw [hev] at h
      dsimp only at h
      split at h
      · cases hcl : cl with
        | none =>
          rw [hcl] at h
          simp only [Except.ok.injEq, Prod.mk.injEq] at h
          rw [← h.1]
          exact evaluate_bounds pc e.grading_config q a.response hq hev
        | some c =>
          rw [hcl] at h
          dsimp only at h
          cases hora : c.gradeAnswer q a.response e.grading_config.strictness with
          | ok ai =>
            rw [hora] at h
            simp only [Except.ok.injEq, Prod.mk.injEq] at h
            rw [← h.1]
            exact hor c hcl a.response e.grading_config.strictness ai hora
          | error err =>
            rw [hora] at h
            simp only [Except.ok.injEq, Prod.mk.injEq] at h
            rw [← h.1]
            exact evaluate_bounds pc e.grading_config q a.response hq hev
      · simp only [Except.ok.injEq, Prod.mk.injEq] at h
        rw [← h.1]
        exact evaluate_bounds pc e.grading_config q a.response hq hev

theorem grade_submission_ok_elim {pc : String → Option String} {e : Exam}
    {cl : Option OracleClient} {s : StudentSubmission} {u : Option Bool} {r : ExamResult}
    (h : grade_submission pc e cl s u = .ok r) :
    ∃ resultsI,
      mapExcept (grade_question pc e cl ((u.getD e.grading_config.ai_grading_enabled) && cl.isSome) s)
        e.questions = .ok resultsI ∧
      r.question_results = resultsI.map (fun p => p.1) ∧
      r.total_points_possible = e.total_points ∧
      ∃ fb, generate_overall_feedback e cl (resultsI.map (fun p => p.1))
          (((resultsI.map (fun p => p.1)).map (fun gr => gr.points_earned)).sum) e.total_points
          ((u.getD e.grading_config.ai_grading_enabled) && cl.isSome) = .ok fb ∧
        r.overall_feedback = fb := by
  unfold grade_submission at h
  dsimp only at h
  cases h1 : mapExcept
      (grade_question pc e cl ((u.getD e.grading_config.ai_grading_enabled) && cl.isSome) s)
      e.questions with
  | error err => rw [h1] at h; cases h
  | ok resultsI =>
    rw [h1] at h
    dsimp only at h
    cases h2 : generate_overall_feedback e cl (resultsI.map (fun p => p.1))
        (((resultsI.map (fun p => p.1)).map (fun gr => gr.points_earned)).sum) e.total_points
        ((u.getD e.grading_config.ai_grading_enabled) && cl.isSome) with
    | error err => rw [h2] at h; cases h
    | ok fb =>
      rw [h2] at h
      simp only [Except.ok.injEq] at h
      rw [← h]
      exact ⟨resultsI, rfl, rfl, rfl, fb, h2, rfl⟩

/-! ## Claim C5 -/

/-- C5: for every question type, the deterministic evaluator returns
(0 points, not correct, the no-answer feedback) whenever the response is
missing (None) or the empty string; the check precedes all type-specific
logic, so the result is the same for every question type. -/
theorem c5_empty_answer_first (pc : String → Option String) (cfg : GradingConfig)
    (q : Question) (ans : PyVal) (h : isEmptyAnswer ans = true) :
    evaluate pc cfg q ans = .ok (0, false, "No answer provided") := by
  unfold evaluate
  rw [h]
  rfl

/-- Witness for C5 at a concrete input: an essay question with the empty
string as response. -/
theorem c5_witness :
    isEmptyAnswer (PyVal.str "") = true ∧
    evaluate wpc {} w5q (PyVal.str "") = .ok (0, false, "No answer provided") :=
  ⟨by decide, c5_empty_answer_first wpc {} w5q (PyVal.str "") (by decide)⟩

/-! ## Claim C6 -/

/-- C6 (amended): the numerical evaluator implements the claimed bands
with tol = abs(t) * abs(c) instead of t * abs(c) (which agree whenever
the metadata tolerance is nonnegative), and a parse failure of either
side yields the invalid-format result. -/
theorem c6_numerical_rule (cfg : GradingConfig) (q : Question) (ans : PyVal) :
    ((evaluate_numerical cfg q ans).1, (evaluate_numerical cfg q ans).2.1) =
      numerical_amended_rule cfg q ans ∧
    (pyFloat q.correct_answer = Option.none ∨ pyFloat ans = Option.none →
      evaluate_numerical cfg q ans = (0, false, "Invalid numerical format")) := by
  constructor
  · unfold evaluate_numerical numerical_amended_rule
    cases hc : pyFloat q.correct_answer with
    | none => rfl
    | some c =>
      cases ha : pyFloat ans with
      | none => rfl
      | some x =>
        dsimp only
        rw [abs_sub_comm c x,
          show |c * ((q.metadata.lookup "tolerance").getD (1/100))| =
              |((q.metadata.lookup "tolerance").getD (1/100))| * |c| from by
            rw [abs_mul, mul_comm]]
        split_ifs with h1 h2 h3 h4
        · rfl
        · rfl
        · exact (h3 ⟨h2.2, by linarith [h2.1]⟩).elim
        · exact (h2 ⟨by linarith [h4.2], h4.1⟩).elim
        · rfl
  · intro h
    unfold evaluate_numerical
    cases hc : pyFloat q.correct_answer with
    | none => rfl
    | some c =>
      rcases h with h | h
      · rw [hc] at h; cases h
      · rw [h]

/-- C6 counterexample: with a negative metadata tolerance the claimed
formula tol = t * abs(c) predicts zero credit for an exact answer, while
the code (which computes abs(c * t)) grants full credit. -/
theorem c6_counterexample :
    ((evaluate_numerical {} w6q (PyVal.str "100")).1,
      (evaluate_numerical {} w6q (PyVal.str "100")).2.1) ≠
      numerical_claimed_rule {} w6q (PyVal.str "100") := by decide

/-- Witness for C6 at concrete inputs: an unparseable response gives the
invalid-format result, and the amended band rule agrees with the
evaluator on an exact numerical answer. -/
theorem c6_witness :
    evaluate_numerical {} w6q (PyVal.str "abc") = (0, false, "Invalid numerical format") ∧
    ((evaluate_numerical {} w6q (PyVal.str "100")).1,
      (evaluate_numerical {} w6q (PyVal.str "100")).2.1) =
      numerical_amended_rule {} w6q (PyVal.str "100") :=
  ⟨(c6_numerical_rule {} w6q (PyVal.str "abc")).2 (Or.inr (by decide)),
    (c6_numerical_rule {} w6q (PyVal.str "100")).1⟩

/-! ## Claim C7 -/

/-- C7: for a short-answer question whose normalized response is not an
exact match, with partial credit enabled and similarity sim between the
normalized strings, the result follows the bands 0.95 (full, correct),
spelling_tolerance (80%, not correct), 0.6 (50%, not correct), else zero;
in particular the 80% band always carries is_correct = false. -/
theorem c7_short_answer_bands (cfg : GradingConfig) (q : Question) (ans : PyVal) (sim : ℚ)
    (hsim : sim = calculate_similarity (normalizeAnswer cfg (pyStr q.correct_answer))
      (normalizeAnswer cfg (pyStr ans)))
    (hne : normalizeAnswer cfg (pyStr q.correct_answer) ≠ normalizeAnswer cfg (pyStr ans))
    (hpc : cfg.enable_partial_credit = true) :
    evaluate_short_answer cfg q ans =
      (if sim ≥ 95/100 then (q.points, true, "Correct!")
        else if sim ≥ cfg.spelling_tolerance then
          (q.points * (8/10), false, "Mostly correct, minor differences from expected answer")
        else if sim ≥ 6/10 then
          (q.points * (1/2), false, "Partially correct, but missing key elements")
        else (0, false, "Incorrect. Expected: " ++ pyStr q.correct_answer)) ∧
    (sim < 95/100 → sim ≥ cfg.spelling_tolerance →
      (evaluate_short_answer cfg q ans).2.1 = false) := by
  subst hsim
  unfold evaluate_short_answer
  dsimp only
  have h1 : ¬((normalizeAnswer cfg (pyStr q.correct_answer) ==
      normalizeAnswer cfg (pyStr ans)) = true) := by
    simp only [beq_iff_eq]
    exact hne
  rw [if_neg h1, if_pos hpc]
  refine ⟨rfl, fun hlt hge => ?_⟩
  rw [if_neg (not_le.mpr hlt), if_pos hge]

/-- Witness for C7 at a concrete input in the 80% band: reference answer
mitochondria, response mitochondira, similarity 11/12. -/
theorem c7_witness :
    evaluate_short_answer {} w7q (PyVal.str "mitochondira") =
      (8, false, "Mostly correct, minor differences from expected answer") ∧
    (evaluate_short_answer {} w7q (PyVal.str "mitochondira")).2.1 = false := by
  have h := c7_short_answer_bands {} w7q (PyVal.str "mitochondira") (11/12)
    (by decide) (by decide) rfl
  exact ⟨h.1.trans (by decide), h.2 (by norm_num) (by decide)⟩

/-! ## Claim C10 -/

/-- C10: both percentage properties return 0 when the possible total is
zero, never raise a division error, and otherwise equal
earned / possible * 100. -/
theorem c10_percentage_guarded (r : GradingResult) (er : ExamResult) :
    GradingResult.percentage r =
      .ok (if r.points_possible = 0 then 0
        else r.points_earned / r.points_possible * 100) ∧
    ExamResult.percentage_score er =
      .ok (if er.total_points_possible = 0 then 0
        else er.total_points_earned / er.total_points_possible * 100) :=
  ⟨percentage_eval r, percentage_score_eval er⟩

/-! ## Index transport lemmas -/

theorem get_congr {α : Type} {l l' : List α} (h : l = l') (i : ℕ) (h1 : i < l.length) :
    l.get ⟨i, h1⟩ = l'.get ⟨i, h ▸ h1⟩ := by
  subst h
  rfl

theorem map_get_eq {α β : Type} (f : α → β) (l : List α) (i : ℕ)
    (h1 : i < (l.map f).length) (h2 : i < l.length) :
    (l.map f).get ⟨i, h1⟩ = f (l.get ⟨i, h2⟩) := by
  induction l generalizing i with
  | nil => cases h2
  | cons a rest ih =>
    cases i with
    | zero => rfl
    | succ j => exact ih j (by simpa using h1) (by simpa using h2)

/-! ## Claim C1 -/

/-- C1 (amended): every GradingResult produced by grading a submission has
points_possible equal to the graded question points, and satisfies
0 ≤ points_earned ≤ points_possible on the unanswered and deterministic
paths; after a successful oracle escalation points_earned is the value the
oracle returned, unclamped, so the bound holds exactly when the oracle
response lies within [0, question points], which is assumed here. -/
theorem c1_points_bounds (pc : String → Option String) (e : Exam) (cl : Option OracleClient)
    (s : StudentSubmission) (u : Option Bool) (r : ExamResult)
    (hq : ∀ q ∈ e.questions, 0 < q.points)
    (hor : ∀ c, cl = some c → ∀ q ∈ e.questions, ∀ ans st res,
      c.gradeAnswer q ans st = .ok res → 0 ≤ res.points_earned ∧ res.points_earned ≤ q.points)
    (h : grade_submission pc e cl s u = .ok r) :
    (∀ gr ∈ r.question_results, 0 ≤ gr.points_earned ∧ gr.points_earned ≤ gr.points_possible) ∧
    (∀ i (h1 : i < r.question_results.length) (h2 : i < e.questions.length),
      (r.question_results.get ⟨i, h1⟩).points_possible = (e.questions.get ⟨i, h2⟩).points) := by
  obtain ⟨resultsI, hmap, hqr, _, _⟩ := grade_submission_ok_elim h
  have hlen : resultsI.length = e.questions.length := mapExcept_ok_length hmap
  constructor
  · intro gr hgr
    rw [hqr] at hgr
    obtain ⟨p, hp, hp1⟩ := List.mem_map.mp hgr
    obtain ⟨q, hqmem, hgq⟩ := mapExcept_ok_mem hmap p hp
    have hshape := @grade_question_ok_shape _ _ _ _ _ _ p.1 p.2 hgq
    obtain ⟨hb1, hb2⟩ := @grade_question_bounds _ _ _ _ _ _ p.1 p.2 (hq q hqmem)
      (fun c hc ans st res hres => hor c hc q hqmem ans st res hres) hgq
    rw [← hp1]
    exact ⟨hb1, by rw [hshape.2]; exact hb2⟩
  · intro i h1 h2
    have h1' : i < resultsI.length := hlen ▸ h2
    have hgq := mapExcept_ok_get hmap i h2 h1'
    have hshape := @grade_question_ok_shape _ _ _ _ _ _
      (resultsI.get ⟨i, h1'⟩).1 (resultsI.get ⟨i, h1'⟩).2 hgq
    rw [get_congr hqr i h1, map_get_eq (fun p => p.1) resultsI i (hqr ▸ h1) h1']
    exact hshape.2

/-- C1 counterexample: with an oracle returning 11 points on a 10-point
question, the grading run succeeds but the produced GradingResult
violates points_earned ≤ points_possible. -/
theorem c1_counterexample :
    Except.isOk (grade_submission wpc w1exam (some wOracleBad) w1subWrong Option.none) = true ∧
    checkOk (grade_submission wpc w1exam (some wOracleBad) w1subWrong Option.none)
      (fun r => r.question_results.all
        (fun gr => decide (0 ≤ gr.points_earned) && decide (gr.points_earned ≤ gr.points_possible)))
      = false := by decide

/-- Witness for C1 at a concrete input: the in-range oracle yields a
result whose first GradingResult satisfies the bounds. -/
theorem c1_witness :
    0 ≤ (w1resGood.question_results.getD 0 junkGradingResult).points_earned ∧
    (w1resGood.question_results.getD 0 junkGradingResult).points_earned ≤
      (w1resGood.question_results.getD 0 junkGradingResult).points_possible := by
  have h := c1_points_bounds wpc w1exam (some wOracleGood) w1subWrong Option.none w1resGood
    (by decide)
    (by
      intro c hc q hqmem ans st res hres
      injection hc with hc2
      subst hc2
      have hq2 : q = w1q := by simpa [w1exam] using hqmem
      subst hq2
      have hres2 : (⟨7, false, "Partially right", Option.none, Option.none⟩ : AIResult) = res :=
        Except.ok.inj hres
      rw [← hres2]
      constructor
      · show (0:ℚ) ≤ 7
        norm_num
      · show (7:ℚ) ≤ 10
        norm_num)
    (by rfl)
  exact h.1 (w1resGood.question_results.getD 0 junkGradingResult) (by decide)

/-! ## Claim C2 -/

/-- C2: during grading of one question with an available oracle client,
the oracle is invoked exactly when AI grading is in use and the question
type is essay or code or the deterministic evaluation was not correct;
an unanswered question yields the synthesized zero result and never
invokes the oracle; and a raised oracle exception leaves the
deterministic points, correctness and feedback unchanged. -/
theorem c2_oracle_escalation (pc : String → Option String) (e : Exam) (c : OracleClient)
    (use_ai : Bool) (s : StudentSubmission) (q : Question) :
    (s.get_answer q.id = Option.none →
      grade_question pc e (some c) use_ai s q = .ok (unanswered_result q, false)) ∧
    (∀ a, s.get_answer q.id = some a →
      ∀ pts corr fb, evaluate pc e.grading_config q a.response = .ok (pts, corr, fb) →
        ((grade_question pc e (some c) use_ai s q).map (fun p => p.2) =
          .ok (use_ai && (needs_ai_types q.question_type || !corr))) ∧
        ((use_ai && (needs_ai_types q.question_type || !corr)) = true →
          ∀ err, c.gradeAnswer q a.response e.grading_config.strictness = .error err →
            grade_question pc e (some c) use_ai s q =
              .ok (basicGradingResult q a.response (pts, corr, fb), true))) := by
  constructor
  · intro hga
    unfold grade_question
    rw [hga]
  · intro a hga pts corr fb hev
    unfold grade_question grade_single_answer
    rw [hga]
    try dsimp only
    rw [hev]
    try dsimp only
    constructor
    · by_cases hcond : (use_ai && (needs_ai_types q.question_type || !corr)) = true
      · rw [if_pos hcond]
        cases hora : c.gradeAnswer q a.response e.grading_config.strictness with
        | ok ai => rw [hcond]; rfl
        | error err => rw [hcond]; rfl
      · rw [if_neg hcond]
        rw [Bool.not_eq_true] at hcond
        rw [hcond]
        rfl
    · intro hcond err herr
      rw [if_pos hcond]
      try dsimp only
      rw [herr]

/-- Witness for C2 at concrete inputs: an unanswered question, an
incorrectly answered multiple-choice question whose flag shows the oracle
was invoked, and a failing oracle leaving the deterministic result. -/
theorem c2_witness :
    grade_question wpc w2exam (some wOracleErr) true w2subNone w2q =
      .ok (unanswered_result w2q, false) ∧
    (grade_question wpc w2exam (some wOracleErr) true w2subWrong w2q).map (fun p => p.2) =
      .ok true ∧
    grade_question wpc w2exam (some wOracleErr) true w2subWrong w2q =
      .ok (basicGradingResult w2q (PyVal.str "b")
        (0, false, "Incorrect. The correct answer is: a"), true) := by
  have h0 := (c2_oracle_escalation wpc w2exam wOracleErr true w2subNone w2q).1 (by decide)
  have h := (c2_oracle_escalation wpc w2exam wOracleErr true w2subWrong w2q).2
    { question_id := "q1", response := PyVal.str "b" } (by decide)
    0 false "Incorrect. The correct answer is: a" (by rfl)
  exact ⟨h0, h.1.trans (by rfl), h.2 (by decide) "APIError: connection reset" (by rfl)⟩

/-! ## Claim C3 -/

/-- C3 (amended): grade_multiple_submissions performs no per-submission
isolation: if grading any submission of the batch raises, the whole batch
call propagates the error and returns no results at all. -/
theorem c3_batch_error_propagates (pc : String → Option String) (e : Exam)
    (cl : Option OracleClient) (subs : List StudentSubmission) (u : Option Bool)
    (s : StudentSubmission) (hmem : s ∈ subs)
    (hfail : Except.isOk (grade_submission pc e cl s u) = false) :
    Except.isOk (grade_multiple_submissions pc e cl subs u) = false := by
  unfold grade_multiple_submissions
  cases hr : mapExcept (fun sub => grade_submission pc e cl sub u) subs with
  | error err => rfl
  | ok ys =>
    obtain ⟨y, hy⟩ := mapExcept_ok_of_mem hr s hmem
    rw [hy] at hfail
    exact absurd hfail (by simp [Except.isOk, Except.toBool])

/-- C3 counterexample: one submission whose code answer contains a null
byte makes the whole batch call fail, even though the other submission
grades fine on its own, so its result is not returned. -/
theorem c3_counterexample :
    Except.isOk (grade_multiple_submissions wpc w3exam Option.none [w3subBad, w3subGood]
      (some false)) = false ∧
    Except.isOk (grade_submission wpc w3exam Option.none w3subGood (some false)) = true := by
  decide

/-- Witness for C3 at a concrete input: the failing submission is in the
batch, its grading fails, and the whole batch call fails. -/
theorem c3_witness :
    w3subBad ∈ [w3subBad, w3subGood] ∧
    Except.isOk (grade_submission wpc w3exam Option.none w3subBad (some false)) = false ∧
    Except.isOk (grade_multiple_submissions wpc w3exam Option.none [w3subBad, w3subGood]
      (some false)) = false :=
  ⟨by decide, by decide,
    c3_batch_error_propagates wpc w3exam Option.none [w3subBad, w3subGood] (some false)
      w3subBad (by decide) (by decide)⟩

/-! ## Claim C4 -/

/-- C4: a successfully produced ExamResult contains exactly one
GradingResult per exam question, in the declared order (same length,
matching question ids position by position), and its
total_points_possible is recomputed as the sum of all question points. -/
theorem c4_exam_result_shape (pc : String → Option String) (e : Exam)
    (cl : Option OracleClient) (s : StudentSubmission) (u : Option Bool) (r : ExamResult)
    (h : grade_submission pc e cl s u = .ok r) :
    r.question_results.length = e.questions.length ∧
    (∀ i (h1 : i < r.question_results.length) (h2 : i < e.questions.length),
      (r.question_results.get ⟨i, h1⟩).question_id = (e.questions.get ⟨i, h2⟩).id) ∧
    r.total_points_possible = (e.questions.map (fun q => q.points)).sum := by
  obtain ⟨resultsI, hmap, hqr, htp, _⟩ := grade_submission_ok_elim h
  have hlen : resultsI.length = e.questions.length := mapExcept_ok_length hmap
  refine ⟨?_, ?_, ?_⟩
  · rw [hqr]
    simpa using hlen
  · intro i h1 h2
    have h1' : i < resultsI.length := hlen ▸ h2
    have hgq := mapExcept_ok_get hmap i h2 h1'
    have hshape := @grade_question_ok_shape _ _ _ _ _ _
      (resultsI.get ⟨i, h1'⟩).1 (resultsI.get ⟨i, h1'⟩).2 hgq
    rw [get_congr hqr i h1, map_get_eq (fun p => p.1) resultsI i (hqr ▸ h1) h1']
    exact hshape.1
  · rw [htp]
    rfl

/-- Witness for C4 at a concrete input: grading a partially answered
two-question exam yields one result per question and the recomputed
total. -/
theorem c4_witness :
    w4res.question_results.length = w4exam.questions.length ∧
    w4res.total_points_possible = (w4exam.questions.map (fun q => q.points)).sum := by
  have h := c4_exam_result_shape wpc w4exam Option.none w4sub Option.none w4res (by rfl)
  exact ⟨h.1, h.2.2⟩

/-! ## Claim C8 -/

/-- C8: class statistics degrade on edge cases instead of raising: an
empty results collection yields the explicit no-data value (the empty
dict) without an error, and a single result yields statistics whose
standard deviation is 0. -/
theorem c8_class_statistics_edges (sqrtFn : ℚ → ℚ) (e : Exam) (r : ExamResult) :
    get_class_statistics sqrtFn e [] = .ok Option.none ∧
    ∃ st, get_class_statistics sqrtFn e [r] = .ok (some st) ∧
      st.std_dev = 0 ∧ st.student_count = 1 := by
  constructor
  · rfl
  · unfold get_class_statistics
    rw [if_neg (by simp : ¬(([r] : List ExamResult).length = 0))]
    have h1 : mapExcept ExamResult.percentage_score [r] = .ok [pctVal r] := by
      simp only [mapExcept, percentage_score_eval]
    rw [h1]
    exact ⟨_, rfl, rfl, rfl⟩

/-! ## Claim C9 -/

theorem containsDivTag_part1 (gc pt : String) (a b c : ℚ) :
    containsDivTag (feedback_part1 gc pt a b c) = true := by
  unfold feedback_part1
  exact containsDivTag_append_left part1_head _ (by decide)

theorem containsDivTag_join (sep x : String) (l : List String)
    (hx : containsDivTag x = true) : containsDivTag (pyJoin sep (x :: l)) = true := by
  cases l with
  | nil => exact hx
  | cons y ys =>
    exact containsDivTag_append_left _ _ (containsDivTag_append_left _ _ hx)

/-- C9 (amended): the overall feedback of every successfully graded
submission is an HTML fragment: it always contains a rendered div tag,
because the score-header block is always emitted. -/
theorem c9_feedback_has_markup (pc : String → Option String) (e : Exam)
    (cl : Option OracleClient) (s : StudentSubmission) (u : Option Bool) (r : ExamResult)
    (h : grade_submission pc e cl s u = .ok r) :
    containsDivTag r.overall_feedback = true := by
  obtain ⟨resultsI, _, _, _, fb, hfb, hofb⟩ := grade_submission_ok_elim h
  rw [hofb]
  unfold generate_overall_feedback at hfb
  dsimp only at hfb
  split at hfb
  · cases hfb
  · simp only [Except.ok.injEq] at hfb
    rw [← hfb]
    exact containsDivTag_join _ _ _ (containsDivTag_part1 _ _ _ _ _)

/-- C9 counterexample: a concrete graded submission whose
overall_feedback contains a rendered div tag, refuting the claim that the
core emits no markup. -/
theorem c9_counterexample :
    checkOk (grade_submission wpc w2exam Option.none w2subWrong (some false))
      (fun r => containsDivTag r.overall_feedback) = true := by decide

/-- Witness for C9 at a concrete input. -/
theorem c9_witness : containsDivTag w9res.overall_feedback = true :=
  c9_feedback_has_markup wpc w2exam Option.none w2subWrong (some false) w9res (by rfl)

end Grading
